import Mathlib

/-!
Verification of `src/n2.c` (CURHELL2.C, an ncurses "Hello, world!" program).

The program is single-threaded and fully sequential, so we embed it as a
function from the terminal environment (whether `initscr` succeeds, whether
`has_colors()` is true, and the value of `COLOR_PAIRS`) to the sequence of
library calls it performs (its trace) together with its exit status.
-/

namespace Curhell2

/-- The eight curses colors used by the program (COLOR_BLACK .. COLOR_WHITE). -/
inductive Color
  | black | red | green | yellow | blue | magenta | cyan | white
  deriving DecidableEq, Repr

/-- One observable action of the program: a curses / libc call with its
arguments.  `mvaddstr row col s` writes string `s` at `(row, col)` in the
pending draw buffer; `colorSet n` makes color pair `n` the current attribute;
`initPair n fg bg` defines color pair `n`; `stderrLine s` is a line written
to the standard error stream. -/
inductive Event
  | startColor
  | initPair (n : Nat) (fg bg : Color)
  | colorSet (n : Nat)
  | mvaddstr (row col : Nat) (s : String)
  | refresh
  | sleep (secs : Nat)
  | delwin
  | endwin
  | stderrLine (s : String)
  deriving DecidableEq, Repr

/-- The message string of `n2.c` line 36/75, leading and trailing space included. -/
def helloMsg : String := " Hello, world! "

/-- The terminal environment the program runs against: whether `initscr`
returns a non-NULL handle, whether `has_colors()` returns true, and the
value of `COLOR_PAIRS`. -/
structure Env where
  initOk : Bool
  hasColors : Bool
  colorPairs : Nat
  deriving DecidableEq, Repr

/-- The thirteen `init_pair` calls of `n2.c` lines 56-68, in source order:
(pair number, foreground, background). -/
def pairTable : List (Nat × Color × Color) :=
  [(1,  .red,     .black),
   (2,  .green,   .black),
   (3,  .yellow,  .black),
   (4,  .blue,    .black),
   (5,  .magenta, .black),
   (6,  .cyan,    .black),
   (7,  .blue,    .white),
   (8,  .white,   .red),
   (9,  .black,   .green),
   (10, .blue,    .yellow),
   (11, .white,   .blue),
   (12, .white,   .magenta),
   (13, .black,   .cyan)]

/-- The `while ( n <= 13 )` loop of `n2.c` lines 73-77: for the current
counter value `n`, if `n <= 13` then `color_set(n, NULL)`,
`mvaddstr(6 + n, 32, " Hello, world! ")`, `n++`, and continue. -/
def colorLoop (n : Nat) : List Event :=
  if n ≤ 13 then
    Event.colorSet n :: Event.mvaddstr (6 + n) 32 helloMsg :: colorLoop (n + 1)
  else []
termination_by 14 - n

/-- The body of `main` in `n2.c`: the trace of calls performed and the exit
status (`EXIT_FAILURE` modelled as 1, `EXIT_SUCCESS` as 0).  If `initscr`
returns NULL the program prints one diagnostic to stderr and exits with
failure; otherwise it calls `start_color()`, draws the base message at
(6, 32), runs the color-gated block when `has_colors() && COLOR_PAIRS >= 13`,
then `refresh()`, `sleep(3)`, `delwin(mainwin)`, `endwin()`, `refresh()`. -/
def run (env : Env) : List Event × Nat :=
  if env.initOk = false then
    ([Event.stderrLine "Error initialising ncurses."], 1)
  else
    let base := [Event.startColor, Event.mvaddstr 6 32 helloMsg]
    let colorPart :=
      if env.hasColors = true ∧ 13 ≤ env.colorPairs then
        pairTable.map (fun p => Event.initPair p.1 p.2.1 p.2.2) ++ colorLoop 1
      else []
    (base ++ colorPart ++
      [Event.refresh, Event.sleep 3, Event.delwin, Event.endwin, Event.refresh], 0)

/-- C `main` has signature `int main(void)` and calls neither `getenv` nor
reads `argv`: the whole process, given its argument vector and environment
variables, behaves as `run` of the terminal capabilities alone. -/
def mainProg (argv : List String) (osEnv : List (String × String)) (caps : Env) :
    List Event × Nat :=
  run caps

/-- Replay a trace tracking the current color-pair attribute (`none` until
the first `color_set`), returning each drawn cell as
(row, column, string, attribute at draw time). -/
def renderOut : Option Nat → List Event → List (Nat × Nat × String × Option Nat)
  | _, [] => []
  | _, Event.colorSet n :: rest => renderOut (some n) rest
  | a, Event.mvaddstr r c s :: rest => (r, c, s, a) :: renderOut a rest
  | a, _ :: rest => renderOut a rest

/-- The color pairs a trace defines, in order of definition. -/
def definedPairs : List Event → List (Nat × Color × Color)
  | [] => []
  | Event.initPair n f b :: rest => (n, f, b) :: definedPairs rest
  | _ :: rest => definedPairs rest

/-- The lines a trace writes to the standard error stream, in order. -/
def stderrLines : List Event → List String
  | [] => []
  | Event.stderrLine s :: rest => s :: stderrLines rest
  | _ :: rest => stderrLines rest

/-- Whether an event is a drawing operation (writes to or changes the state
of the draw buffer). -/
def Event.isDrawOp : Event → Bool
  | .mvaddstr _ _ _ => true
  | .colorSet _ => true
  | .initPair _ _ _ => true
  | _ => false

/-- Whether an event is a `color_set` call. -/
def Event.isColorSet : Event → Bool
  | .colorSet _ => true
  | _ => false

/-- Whether an event is a `sleep` call. -/
def Event.isSleep : Event → Bool
  | .sleep _ => true
  | _ => false

/-- The trace of a successful run on a terminal without usable color
(the color-gated block is skipped). -/
def tracePlain : List Event :=
  [Event.startColor, Event.mvaddstr 6 32 helloMsg,
   Event.refresh, Event.sleep 3, Event.delwin, Event.endwin, Event.refresh]

/-- The trace of a successful run on a color-capable terminal with at
least 13 color pairs, fully unfolded. -/
def traceColor : List Event :=
  [Event.startColor, Event.mvaddstr 6 32 helloMsg,
   Event.initPair 1  .red     .black,
   Event.initPair 2  .green   .black,
   Event.initPair 3  .yellow  .black,
   Event.initPair 4  .blue    .black,
   Event.initPair 5  .magenta .black,
   Event.initPair 6  .cyan    .black,
   Event.initPair 7  .blue    .white,
   Event.initPair 8  .white   .red,
   Event.initPair 9  .black   .green,
   Event.initPair 10 .blue    .yellow,
   Event.initPair 11 .white   .blue,
   Event.initPair 12 .white   .magenta,
   Event.initPair 13 .black   .cyan,
   Event.colorSet 1,  Event.mvaddstr 7 32 helloMsg,
   Event.colorSet 2,  Event.mvaddstr 8 32 helloMsg,
   Event.colorSet 3,  Event.mvaddstr 9 32 helloMsg,
   Event.colorSet 4,  Event.mvaddstr 10 32 helloMsg,
   Event.colorSet 5,  Event.mvaddstr 11 32 helloMsg,
   Event.colorSet 6,  Event.mvaddstr 12 32 helloMsg,
   Event.colorSet 7,  Event.mvaddstr 13 32 helloMsg,
   Event.colorSet 8,  Event.mvaddstr 14 32 helloMsg,
   Event.colorSet 9,  Event.mvaddstr 15 32 helloMsg,
   Event.colorSet 10, Event.mvaddstr 16 32 helloMsg,
   Event.colorSet 11, Event.mvaddstr 17 32 helloMsg,
   Event.colorSet 12, Event.mvaddstr 18 32 helloMsg,
   Event.colorSet 13, Event.mvaddstr 19 32 helloMsg,
   Event.refresh, Event.sleep 3, Event.delwin, Event.endwin, Event.refresh]

/-- Unfolded value of the loop started at `n = 1`. -/
theorem colorLoop_one :
    colorLoop 1 =
      [Event.colorSet 1,  Event.mvaddstr 7 32 helloMsg,
       Event.colorSet 2,  Event.mvaddstr 8 32 helloMsg,
       Event.colorSet 3,  Event.mvaddstr 9 32 helloMsg,
       Event.colorSet 4,  Event.mvaddstr 10 32 helloMsg,
       Event.colorSet 5,  Event.mvaddstr 11 32 helloMsg,
       Event.colorSet 6,  Event.mvaddstr 12 32 helloMsg,
       Event.colorSet 7,  Event.mvaddstr 13 32 helloMsg,
       Event.colorSet 8,  Event.mvaddstr 14 32 helloMsg,
       Event.colorSet 9,  Event.mvaddstr 15 32 helloMsg,
       Event.colorSet 10, Event.mvaddstr 16 32 helloMsg,
       Event.colorSet 11, Event.mvaddstr 17 32 helloMsg,
       Event.colorSet 12, Event.mvaddstr 18 32 helloMsg,
       Event.colorSet 13, Event.mvaddstr 19 32 helloMsg] := by
  simp [colorLoop]

/-- On a successful start with usable color, the run is the fully unfolded
color trace with exit status 0. -/
theorem run_color_eq (env : Env) (h1 : env.initOk = true)
    (h2 : env.hasColors = true) (h3 : 13 ≤ env.colorPairs) :
    run env = (traceColor, 0) := by
  simp [run, h1, h2, h3, colorLoop_one, pairTable, traceColor]

/-- On a successful start without usable color, the run is the plain trace
with exit status 0. -/
theorem run_plain_eq (env : Env) (h1 : env.initOk = true)
    (h2 : ¬(env.hasColors = true ∧ 13 ≤ env.colorPairs)) :
    run env = (tracePlain, 0) := by
  simp [run, h1, h2, tracePlain]

/-- On a failed start, the run is one stderr line with exit status 1. -/
theorem run_fail_eq (env : Env) (h : env.initOk = false) :
    run env = ([Event.stderrLine "Error initialising ncurses."], 1) := by
  simp [run, h]

/-- Claim C1: after a successful session start (initscr returns a non-NULL
handle), the string " Hello, world! " (15 characters, including leading and
trailing space) is written at row 6, column 32, regardless of whether the
terminal supports color. -/
theorem c1_baseRender (env : Env) (h : env.initOk = true) :
    Event.mvaddstr 6 32 helloMsg ∈ (run env).1 ∧ helloMsg.length = 15 := by
  refine ⟨?_, by decide⟩
  by_cases hc : env.hasColors = true ∧ 13 ≤ env.colorPairs
  · rw [run_color_eq env h hc.1 hc.2]; decide
  · rw [run_plain_eq env h hc]; decide

/-- Witness for C1 at a concrete color-incapable environment. -/
theorem c1_baseRender_witness :
    (Env.mk true false 0).initOk = true ∧
    (Event.mvaddstr 6 32 helloMsg ∈ (run (Env.mk true false 0)).1 ∧
      helloMsg.length = 15) :=
  ⟨rfl, c1_baseRender (Env.mk true false 0) rfl⟩

/-- Claim C2: with color support and at least 13 representable pairs, the
message is drawn exactly once at each of rows 7 through 19, column 32, row
6 + n carrying color pair n for n = 1..13, and the 13 defined
(foreground, background) pairs are exactly the table of the source, in
index order. -/
theorem c2_colorComplete (env : Env) (h1 : env.initOk = true)
    (h2 : env.hasColors = true) (h3 : 13 ≤ env.colorPairs) :
    renderOut none (run env).1 =
      [(6, 32, helloMsg, none),
       (7, 32, helloMsg, some 1),  (8, 32, helloMsg, some 2),
       (9, 32, helloMsg, some 3),  (10, 32, helloMsg, some 4),
       (11, 32, helloMsg, some 5), (12, 32, helloMsg, some 6),
       (13, 32, helloMsg, some 7), (14, 32, helloMsg, some 8),
       (15, 32, helloMsg, some 9), (16, 32, helloMsg, some 10),
       (17, 32, helloMsg, some 11), (18, 32, helloMsg, some 12),
       (19, 32, helloMsg, some 13)] ∧
    definedPairs (run env).1 = pairTable := by
  rw [run_color_eq env h1 h2 h3]
  exact ⟨by decide, by decide⟩

/-- Witness for C2 at a concrete color-capable environment with exactly 13
pairs. -/
theorem c2_colorComplete_witness :
    (Env.mk true true 13).initOk = true ∧ (Env.mk true true 13).hasColors = true ∧
    13 ≤ (Env.mk true true 13).colorPairs ∧
    definedPairs (run (Env.mk true true 13)).1 = pairTable :=
  ⟨rfl, rfl, by decide, (c2_colorComplete (Env.mk true true 13) rfl rfl (by decide)).2⟩

/-- Claim C3: without color support, or with fewer than 13 representable
pairs, nothing is drawn at rows 7 through 19 and no color pairs are
defined; the only rendered content is the row-6 message, and the branch is
skipped silently (no stderr output). -/
theorem c3_colorGating (env : Env) (h1 : env.initOk = true)
    (h2 : ¬(env.hasColors = true ∧ 13 ≤ env.colorPairs)) :
    renderOut none (run env).1 = [(6, 32, helloMsg, none)] ∧
    definedPairs (run env).1 = [] ∧
    stderrLines (run env).1 = [] := by
  rw [run_plain_eq env h1 h2]
  exact ⟨by decide, by decide, by decide⟩

/-- Witness for C3 at a concrete environment with color but only 12 pairs. -/
theorem c3_colorGating_witness :
    (Env.mk true true 12).initOk = true ∧
    ¬((Env.mk true true 12).hasColors = true ∧ 13 ≤ (Env.mk true true 12).colorPairs) ∧
    renderOut none (run (Env.mk true true 12)).1 = [(6, 32, helloMsg, none)] :=
  ⟨rfl, by decide, (c3_colorGating (Env.mk true true 12) rfl (by decide)).1⟩

/-- Claim C4: if initscr returns NULL, no drawing operation is attempted,
exactly one diagnostic line "Error initialising ncurses." goes to standard
error, and the process exits with a non-zero status; nothing else happens. -/
theorem c4_initFailure (env : Env) (h : env.initOk = false) :
    run env = ([Event.stderrLine "Error initialising ncurses."], 1) ∧
    (∀ e ∈ (run env).1, e.isDrawOp = false) ∧
    stderrLines (run env).1 = ["Error initialising ncurses."] ∧
    (run env).2 ≠ 0 := by
  have hrun := run_fail_eq env h
  rw [hrun]
  exact ⟨rfl, by decide, by decide, by decide⟩

/-- Witness for C4 at a concrete environment whose initialization fails. -/
theorem c4_initFailure_witness :
    (Env.mk false true 64).initOk = false ∧
    run (Env.mk false true 64) =
      ([Event.stderrLine "Error initialising ncurses."], 1) :=
  ⟨rfl, (c4_initFailure (Env.mk false true 64) rfl).1⟩

/-- Claim C5: after all rendering decisions the trace ends with refresh,
then a sleep of exactly 3 seconds, then teardown (delwin, endwin, final
refresh); everything before that suffix is setup or drawing, and the run
contains exactly one sleep, of 3 seconds. -/
theorem c5_presentAfterDraws (env : Env) (h : env.initOk = true) :
    ∃ p : List Event,
      (run env).1 =
        p ++ [Event.refresh, Event.sleep 3, Event.delwin, Event.endwin, Event.refresh] ∧
      (∀ e ∈ p, e.isDrawOp = true ∨ e = Event.startColor) ∧
      (run env).1.filter Event.isSleep = [Event.sleep 3] := by
  by_cases hc : env.hasColors = true ∧ 13 ≤ env.colorPairs
  · rw [run_color_eq env h hc.1 hc.2]
    exact ⟨traceColor.take 41, by decide, by decide, by decide⟩
  · rw [run_plain_eq env h hc]
    exact ⟨tracePlain.take 2, by decide, by decide, by decide⟩

/-- Witness for C5 at a concrete color-capable environment. -/
theorem c5_presentAfterDraws_witness :
    (Env.mk true true 256).initOk = true ∧
    (∃ p : List Event,
      (run (Env.mk true true 256)).1 =
        p ++ [Event.refresh, Event.sleep 3, Event.delwin, Event.endwin, Event.refresh] ∧
      (∀ e ∈ p, e.isDrawOp = true ∨ e = Event.startColor) ∧
      (run (Env.mk true true 256)).1.filter Event.isSleep = [Event.sleep 3]) :=
  ⟨rfl, c5_presentAfterDraws (Env.mk true true 256) rfl⟩

/-- Claim C6: on every path where initialization succeeds, teardown
(delwin, endwin plus the final refresh) runs before process exit, endwin
executes exactly once, and the process then exits normally with status 0. -/
theorem c6_sessionSymmetry (env : Env) (h : env.initOk = true) :
    ∃ p : List Event,
      (run env).1 = p ++ [Event.delwin, Event.endwin, Event.refresh] ∧
      (run env).1.count Event.endwin = 1 ∧
      (run env).2 = 0 := by
  by_cases hc : env.hasColors = true ∧ 13 ≤ env.colorPairs
  · rw [run_color_eq env h hc.1 hc.2]
    exact ⟨traceColor.take 43, by decide, by decide, rfl⟩
  · rw [run_plain_eq env h hc]
    exact ⟨tracePlain.take 4, by decide, by decide, rfl⟩

/-- Witness for C6 at a concrete color-incapable environment. -/
theorem c6_sessionSymmetry_witness :
    (Env.mk true false 7).initOk = true ∧
    (∃ p : List Event,
      (run (Env.mk true false 7)).1 = p ++ [Event.delwin, Event.endwin, Event.refresh] ∧
      (run (Env.mk true false 7)).1.count Event.endwin = 1 ∧
      (run (Env.mk true false 7)).2 = 0) :=
  ⟨rfl, c6_sessionSymmetry (Env.mk true false 7) rfl⟩

/-- Claim C7: the exit status is 0 if and only if terminal initialization
succeeded; it is non-zero exactly when initialization fails. -/
theorem c7_exitStatusIff (env : Env) : (run env).2 = 0 ↔ env.initOk = true := by
  by_cases h : env.initOk = true
  · by_cases hc : env.hasColors = true ∧ 13 ≤ env.colorPairs
    · rw [run_color_eq env h hc.1 hc.2]; simp [h]
    · rw [run_plain_eq env h hc]; simp [h]
  · rw [run_fail_eq env (by simpa using h)]; simp [h]

/-- Claim C8: the program consumes neither command-line arguments nor
environment variables: two runs with the same terminal capability outcomes
produce identical traces (rendered output and diagnostics) and exit status,
whatever argument vector and environment are supplied. -/
theorem c8_noInputDependence (a1 a2 : List String)
    (e1 e2 : List (String × String)) (caps : Env) :
    mainProg a1 e1 caps = mainProg a2 e2 caps := rfl

/-- Claim C9: start_color is called unconditionally on every successful
start, as the very first library call after initialization and before the
base message is drawn, in every capability configuration; it is called
exactly once. -/
theorem c9_startColorAlways (env : Env) (h : env.initOk = true) :
    (run env).1.take 2 = [Event.startColor, Event.mvaddstr 6 32 helloMsg] ∧
    (run env).1.count Event.startColor = 1 := by
  by_cases hc : env.hasColors = true ∧ 13 ≤ env.colorPairs
  · rw [run_color_eq env h hc.1 hc.2]
    exact ⟨by decide, by decide⟩
  · rw [run_plain_eq env h hc]
    exact ⟨by decide, by decide⟩

/-- Witness for C9 at a concrete environment without color support. -/
theorem c9_startColorAlways_witness :
    (Env.mk true false 13).initOk = true ∧
    ((run (Env.mk true false 13)).1.take 2 =
        [Event.startColor, Event.mvaddstr 6 32 helloMsg] ∧
      (run (Env.mk true false 13)).1.count Event.startColor = 1) :=
  ⟨rfl, c9_startColorAlways (Env.mk true false 13) rfl⟩

/-- Claim C10: the base message at row 6 is drawn before any color_set call
occurs, so the single cell rendered at row 6 carries the default attribute
(no color pair), in both the color-capable and color-incapable cases. -/
theorem c10_baseRowDefaultAttr (env : Env) (h : env.initOk = true) :
    (renderOut none (run env).1).filter (fun cell => cell.1 == 6) =
      [(6, 32, helloMsg, none)] ∧
    Event.mvaddstr 6 32 helloMsg ∈
      (run env).1.takeWhile (fun e => !(e.isColorSet)) := by
  by_cases hc : env.hasColors = true ∧ 13 ≤ env.colorPairs
  · rw [run_color_eq env h hc.1 hc.2]
    exact ⟨by decide, by decide⟩
  · rw [run_plain_eq env h hc]
    exact ⟨by decide, by decide⟩

/-- Witness for C10 at a concrete color-capable environment. -/
theorem c10_baseRowDefaultAttr_witness :
    (Env.mk true true 64).initOk = true ∧
    ((renderOut none (run (Env.mk true true 64)).1).filter (fun cell => cell.1 == 6) =
        [(6, 32, helloMsg, none)] ∧
      Event.mvaddstr 6 32 helloMsg ∈
        (run (Env.mk true true 64)).1.takeWhile (fun e => !(e.isColorSet))) :=
  ⟨rfl, c10_baseRowDefaultAttr (Env.mk true true 64) rfl⟩

end Curhell2
